import Mathlib

/-!
Verification development for the SafeHorizon backend core
(src/geofencing.py and src/ml_engine.py), via a shallow embedding of the
Python source into Lean.  Machine floats are modelled by exact rationals;
NaN-able pandas cells are modelled by `Option ℚ` (none = NaN); Python
exceptions of fallible numeric library calls are modelled by `Except`;
the shapely geometry library, which is not part of this repository, is
modelled by an abstract backend structure carrying its documented
semantics (`contains` is strict: a point of the boundary is not
contained).
-/

namespace SafeHorizon

/-! ## Geofencing (src/geofencing.py) -/

namespace Geo

/-- Model of the shapely geometry operations used by `point_in_polygon`.
`isValid` models `Polygon.is_valid` (false for e.g. self-intersecting
rings); `containsPoint` models `Polygon.contains`, whose documented
semantics is strict-interior containment: a point lying on the polygon's
boundary is not contained.  `boundary` is the semantic boundary predicate
and `containsPoint_strict` records the strictness contract. -/
structure GeometryBackend where
  isValid : List (ℚ × ℚ) → Bool
  containsPoint : List (ℚ × ℚ) → ℚ × ℚ → Bool
  boundary : List (ℚ × ℚ) → ℚ × ℚ → Prop
  containsPoint_strict : ∀ ring p, boundary ring p → containsPoint ring p = false

/-- Conversion loop of `point_in_polygon` (lines 19-25): each input
coordinate `[lat, lon, ...]` with at least two entries becomes the pair
`(lon, lat)`; any shorter coordinate aborts the whole conversion
(the Python code returns `False` there). -/
def convertRing (polygon_coords : List (List ℚ)) : Option (List (ℚ × ℚ)) :=
  polygon_coords.mapM fun c =>
    match c with
    | a :: b :: _ => some (b, a)
    | _ => none

/-- Embedding of `point_in_polygon(lat, lon, polygon_coords)`
(src/geofencing.py lines 8-32).  The function is total: every failure
path of the source returns `False` rather than raising. -/
def point_in_polygon (B : GeometryBackend) (lat lon : ℚ)
    (polygon_coords : List (List ℚ)) : Bool :=
  if polygon_coords.length < 3 then
    false
  else
    match convertRing polygon_coords with
    | none => false
    | some ring => B.isValid ring && B.containsPoint ring (lon, lat)

/-- One row of the geofences CSV as seen by `check_geofences`.
`polygon` holds the result of `json.loads(geofence['polygon'])`:
`none` models a raw value whose parse raises (that zone is skipped). -/
structure GeofenceRow where
  id : String
  name : String
  severity : String
  polygon : Option (List (List ℚ))

/-- Record returned for a matching zone. -/
structure GeofenceMatch where
  id : String
  name : String
  severity : String
deriving DecidableEq, Repr

/-- Embedding of `check_geofences(lat, lon)` (src/geofencing.py lines
34-50): iterate the stored rows in order, skip rows whose polygon fails
to parse, return the first row whose polygon contains the point, else
`none`. -/
def check_geofences (B : GeometryBackend) (lat lon : ℚ) :
    List GeofenceRow → Option GeofenceMatch
  | [] => none
  | row :: rest =>
    match row.polygon with
    | none => check_geofences B lat lon rest
    | some coords =>
      if point_in_polygon B lat lon coords then
        some ⟨row.id, row.name, row.severity⟩
      else
        check_geofences B lat lon rest

/-- Predicate: this row parses and its polygon contains the point. -/
def rowMatches (B : GeometryBackend) (lat lon : ℚ) (row : GeofenceRow) : Bool :=
  match row.polygon with
  | none => false
  | some coords => point_in_polygon B lat lon coords

/-- The square ring used to instantiate the abstract geometry backend in
concrete evaluations, listed as (lon, lat) = (x, y) pairs. -/
def squareRing : List (ℚ × ℚ) := [(0, 0), (1, 0), (1, 1), (0, 1)]

/-- A concrete geometry backend for the unit square: containment is the
strict-interior test, so the strictness contract is provable. -/
def squareBackend : GeometryBackend where
  isValid := fun _ => true
  containsPoint := fun ring p =>
    ring == squareRing &&
      (decide (0 < p.1) && decide (p.1 < 1) && decide (0 < p.2) && decide (p.2 < 1))
  boundary := fun ring p =>
    ring = squareRing ∧ 0 ≤ p.1 ∧ p.1 ≤ 1 ∧ 0 ≤ p.2 ∧ p.2 ≤ 1 ∧
      (p.1 = 0 ∨ p.1 = 1 ∨ p.2 = 0 ∨ p.2 = 1)
  containsPoint_strict := by
    intro ring p h
    obtain ⟨hr, _, hx1, _, hy1, hcase⟩ := h
    subst hr
    rcases hcase with h | h | h | h <;>
      simp [h, lt_irrefl]

end Geo

/-! ## ML engine (src/ml_engine.py): data model -/

namespace ML

/-- One row of the locations CSV as seen by the ML engine.  A cell of
`none` models a NaN/missing value; `hour` is the result of
`pd.to_datetime(timestamp, errors=coerce).dt.hour` with `none` modelling
an unparsable timestamp. -/
structure LocationRow where
  lat : ℚ
  lon : ℚ
  speed_kmh : Option ℚ
  in_geofence : Option ℚ
  hour : Option ℚ
deriving DecidableEq

/-- One row of the alerts CSV (only the coordinates are consumed). -/
structure AlertRow where
  lat : ℚ
  lon : ℚ
deriving DecidableEq

/-- Nearby test of lines 59-62 and 260-263: the alert lies within 0.01
degrees of the given point in both coordinates. -/
def near (lat lon : ℚ) (a : AlertRow) : Bool :=
  decide (|a.lat - lat| < 1/100) && decide (|a.lon - lon| < 1/100)

/-- Location-risk feature at training time (lines 55-68): with at least
one alert, the fraction of alerts near the row's location; with no
alerts the whole column is the scalar 0. -/
def location_risk (alerts : List AlertRow) (r : LocationRow) : ℚ :=
  if alerts.length = 0 then 0
  else (alerts.countP (near r.lat r.lon) : ℚ) / max (alerts.length : ℚ) 1

/-- The non-NaN speeds of the location history (pandas mean/std skip
NaN). -/
def speedVals (locs : List LocationRow) : List ℚ :=
  locs.filterMap (fun r => r.speed_kmh)

/-- Pandas `mean()` over the speed column: NaN (`none`) when no value is
present. -/
def speed_mean (locs : List LocationRow) : Option ℚ :=
  let v := speedVals locs
  if v.length = 0 then none else some (v.sum / v.length)

/-- Square of pandas `std()` (sample standard deviation, ddof = 1) over
the speed column: NaN (`none`) with fewer than two values.  The variance
is kept exact; the square root is supplied as a parameter where
needed. -/
def speed_var (locs : List LocationRow) : Option ℚ :=
  let v := speedVals locs
  if v.length < 2 then none
  else
    let m := v.sum / v.length
    some ((v.map (fun x => (x - m) ^ 2)).sum / ((v.length : ℚ) - 1))

/-- The branch condition `speed_std > 0` of lines 73 and 272 (NaN
compares false). -/
def speed_std_pos (locs : List LocationRow) : Bool :=
  match speed_var locs with
  | some v => decide (0 < v)
  | none => false

/-- Speed-anomaly feature at training time (lines 70-76), using the
filled speed column: |speed − mean| / std when std > 0, else the scalar
0.  `sqrtQ` models the numeric square root used by the float library. -/
def speed_anomaly_train (sqrtQ : ℚ → ℚ) (locs : List LocationRow)
    (r : LocationRow) : ℚ :=
  if speed_std_pos locs then
    |r.speed_kmh.getD 0 - (speed_mean locs).getD 0| / sqrtQ ((speed_var locs).getD 0)
  else 0

/-- A pandas feature frame after the final `fillna(0)`: column names and
one all-rational row per location. -/
structure FeatureFrame where
  cols : List String
  rows : List (List ℚ)
deriving DecidableEq

/-- The basic-schema row of line 46: `[['speed_kmh', 'in_geofence']].fillna(0)`. -/
def basicRow (r : LocationRow) : List (Option ℚ) :=
  [some (r.speed_kmh.getD 0), some (r.in_geofence.getD 0)]

/-- The enhanced-schema row (lines 49-79): the basic row followed by
location risk, speed anomaly, and the hour of day with unparsable
timestamps defaulted to 12. -/
def enhancedRow (sqrtQ : ℚ → ℚ) (locs : List LocationRow)
    (alerts : List AlertRow) (r : LocationRow) : List (Option ℚ) :=
  basicRow r ++ [some (location_risk alerts r),
    some (speed_anomaly_train sqrtQ locs r), some (r.hour.getD 12)]

/-- The final `features.fillna(0)` of line 81: every remaining missing
cell becomes 0. -/
def fillFrame (rows : List (List (Option ℚ))) : List (List ℚ) :=
  rows.map (List.map (fun c => c.getD 0))

/-- Embedding of `extract_enhanced_features()` (lines 36-85): fewer than
5 locations signals insufficient data (`none`, the Python `return None`);
5 to 10 locations produce the basic 2-field schema; more than 10 produce
the enhanced 5-field schema; the result is passed through `fillna(0)`. -/
def extract_enhanced_features (sqrtQ : ℚ → ℚ) (locs : List LocationRow)
    (alerts : List AlertRow) : Option FeatureFrame :=
  if locs.length < 5 then none
  else if 10 < locs.length then
    some { cols := ["speed_kmh", "in_geofence", "location_risk", "speed_anomaly", "hour"],
           rows := fillFrame (locs.map (enhancedRow sqrtQ locs alerts)) }
  else
    some { cols := ["speed_kmh", "in_geofence"],
           rows := fillFrame (locs.map basicRow) }

/-- Model of a fitted sklearn `StandardScaler`: the attribute
`n_features_in_` (`none` models an unfitted scaler, where the attribute
access raises) and the data it was fitted on. -/
structure StandardScaler where
  nFeaturesIn : Option ℕ
  trainData : List (List ℚ)
deriving DecidableEq

/-- Width of a feature matrix (number of columns). -/
def frameWidth (rows : List (List ℚ)) : ℕ :=
  (rows.head?.map List.length).getD 0

/-- The result of `StandardScaler().fit(data)`. -/
def StandardScaler.fit (rows : List (List ℚ)) : StandardScaler :=
  ⟨some (frameWidth rows), rows⟩

/-- A freshly constructed, never fitted `StandardScaler()`. -/
def StandardScaler.unfitted : StandardScaler := ⟨none, []⟩

/-- Model of a fitted sklearn `IsolationForest`: its parameters and the
data it was fitted on. -/
structure IsolationForest where
  contamination : ℚ
  randomState : ℕ
  nEstimators : ℕ
  trainData : List (List ℚ)
deriving DecidableEq

/-- The result of `IsolationForest(contamination, random_state).fit(data)`. -/
def IsolationForest.fit (c : ℚ) (seed : ℕ) (rows : List (List ℚ)) : IsolationForest :=
  ⟨c, seed, 100, rows⟩

/-- The module-global mutable state of src/ml_engine.py: `anomaly_model`,
`scaler`, `last_training_time` (seconds), `last_data_hash`. -/
structure MLState where
  anomaly_model : Option IsolationForest
  scaler : Option StandardScaler
  last_training_time : Option ℚ
  last_data_hash : Option ℤ
deriving DecidableEq

/-- Dynamic contamination clamp of line 115:
`min(0.2, max(0.05, configured))`. -/
def dynamicContamination (c : ℚ) : ℚ :=
  min (2/10) (max (1/20) c)

/-- The fixed built-in seed dataset of line 106: three rows with the
basic 2-field schema {speed_kmh, in_geofence}. -/
def dummy_data : List (List ℚ) := [[30, 0], [40, 1], [50, 0]]

/-- Inputs of one call to `train_anomaly_model`, with the fallible
numeric/IO library steps modelled by `Except`: `fitTransform` is the
numeric result of `StandardScaler.fit_transform`, `persistOutcome` is
the outcome of pickling the model and scaler to disk. -/
structure TrainCtx where
  sqrtQ : ℚ → ℚ
  locations : List LocationRow
  alerts : List AlertRow
  fitTransform : List (List ℚ) → Except String (List (List ℚ))
  persistOutcome : Except String Unit
  now : ℚ
  contaminationCfg : ℚ
  randomState : ℕ

/-- Tail of `train_anomaly_model` after fitting (lines 127-138): the
global model and scaler are already assigned; the save step may raise,
in which case the exception is caught by the except of line 137 and
`last_training_time` (line 134) is not updated. -/
def finishTraining (ctx : TrainCtx) (sc : StandardScaler)
    (model : IsolationForest) (st : MLState) : MLState :=
  let st1 := { st with scaler := some sc, anomaly_model := some model }
  match ctx.persistOutcome with
  | .ok _ => { st1 with last_training_time := some ctx.now }
  | .error _ => st1

/-- Embedding of `train_anomaly_model()` (lines 87-138).  The whole body
is wrapped in try/except, so the function is total and never surfaces an
error to its caller: with no features or fewer than 5 feature rows it
fits scaler and model on the built-in seed dataset; otherwise it scales
the feature matrix and fits the forest on the scaled data (a numeric
failure there is caught, leaving the freshly assigned unfitted scaler in
place, the previous model untouched). -/
def train_anomaly_model (ctx : TrainCtx) (st : MLState) : MLState :=
  match extract_enhanced_features ctx.sqrtQ ctx.locations ctx.alerts with
  | none =>
    finishTraining ctx (StandardScaler.fit dummy_data)
      (IsolationForest.fit ctx.contaminationCfg ctx.randomState dummy_data) st
  | some fr =>
    if fr.rows.length < 5 then
      finishTraining ctx (StandardScaler.fit dummy_data)
        (IsolationForest.fit ctx.contaminationCfg ctx.randomState dummy_data) st
    else
      match ctx.fitTransform fr.rows with
      | .error _ => { st with scaler := some StandardScaler.unfitted }
      | .ok scaled =>
        finishTraining ctx (StandardScaler.fit fr.rows)
          (IsolationForest.fit (dynamicContamination ctx.contaminationCfg)
            ctx.randomState scaled) st

/-- Fingerprint comparison step of `should_retrain` (lines 151-157): if
no fingerprint is stored or the current one differs, record it and
report a retrain. -/
def hashCheck (currentHash : ℤ) (st : MLState) : Bool × MLState :=
  match st.last_data_hash with
  | none => (true, { st with last_data_hash := some currentHash })
  | some h =>
    if currentHash ≠ h then (true, { st with last_data_hash := some currentHash })
    else (false, st)

/-- Embedding of `should_retrain()` (lines 140-161): with a recorded
last training time and less than 30 seconds elapsed, return false at
once (the fingerprint is neither computed nor recorded); otherwise fall
through to the fingerprint comparison. -/
def should_retrain (now : ℚ) (currentHash : ℤ) (st : MLState) : Bool × MLState :=
  match st.last_training_time with
  | some t => if now - t < 30 then (false, st) else hashCheck currentHash st
  | none => hashCheck currentHash st

/-- Embedding of `force_retrain()` (lines 221-233): holding the retrain
mutex (modelled separately by the lock system), reset `last_data_hash`
to the unknown value, run `train_anomaly_model` and return `True`.
Because `train_anomaly_model` catches every exception itself, the
except-branch of `force_retrain` (which would return `False`) is
unreachable for failures of the training run. -/
def force_retrain (ctx : TrainCtx) (st : MLState) : Bool × MLState :=
  let st1 := { st with last_data_hash := none }
  (true, train_anomaly_model ctx st1)

/-- Abstract model of the sklearn numeric operations used at prediction
time; each may raise (`Except.error`). -/
structure SkOps where
  transform : StandardScaler → List (List ℚ) → Except String (List (List ℚ))
  forestPredict : IsolationForest → List (List ℚ) → Except String (List ℤ)
  decisionFunction : IsolationForest → List (List ℚ) → Except String (List ℚ)

/-- Request-time environment of `predict_anomaly`: the current CSV
contents and the current hour of day. -/
structure PredictEnv where
  sqrtQ : ℚ → ℚ
  alerts : List AlertRow
  locations : List LocationRow
  currentHour : ℚ

/-- Location-risk recomputation at prediction time (lines 257-264):
0 unless both coordinates are supplied and at least one alert exists. -/
def location_risk_predict (alerts : List AlertRow) (lat? lon? : Option ℚ) : ℚ :=
  match lat?, lon? with
  | some lat, some lon =>
    if 0 < alerts.length then
      (alerts.countP (near lat lon) : ℚ) / max (alerts.length : ℚ) 1
    else 0
  | _, _ => 0

/-- Speed-anomaly recomputation at prediction time (lines 266-273). -/
def speed_anomaly_predict (sqrtQ : ℚ → ℚ) (locs : List LocationRow)
    (speed : ℚ) : ℚ :=
  if 0 < locs.length then
    if speed_std_pos locs then
      |speed - (speed_mean locs).getD 0| / sqrtQ ((speed_var locs).getD 0)
    else 0
  else 0

/-- Pad/truncate reconciliation of lines 283-288: a vector narrower than
the expected width is extended with zero-valued synthetic fields
appended at the end; one wider is truncated from the right. -/
def reconcile (n : ℕ) (v : List ℚ) : List ℚ :=
  if v.length < n then v ++ List.replicate (n - v.length) 0
  else if n < v.length then v.take n
  else v

/-- The request-time feature vector before reconciliation: the 2-field
basic vector when the scaler expects 2 features, else the 5-field
enhanced vector (lines 250-281). -/
def rawFeatures (env : PredictEnv) (n : ℕ) (speed_kmh in_geofence : ℚ)
    (lat? lon? : Option ℚ) : List ℚ :=
  if n = 2 then [speed_kmh, in_geofence]
  else [speed_kmh, in_geofence, location_risk_predict env.alerts lat? lon?,
    speed_anomaly_predict env.sqrtQ env.locations speed_kmh, env.currentHour]

/-- The verdict record returned by `predict_anomaly`. -/
structure PredictResult where
  is_anomaly : Bool
  confidence : ℚ
  score : ℚ
deriving DecidableEq, Repr

/-- The neutral default verdict: not anomalous, confidence 0, score 0. -/
def neutralResult : PredictResult := ⟨false, 0, 0⟩

/-- The fallible body of `predict_anomaly` (lines 239-302): with no
model or no scaler loaded, the neutral default is returned normally;
otherwise the feature vector is built for the scaler's expected width
(attribute failure defaults to 2), reconciled when in the enhanced
branch, then scaled and scored; any library failure propagates as
`Except.error` to the surrounding handler. -/
def predictCore (ops : SkOps) (env : PredictEnv) (st : MLState)
    (speed_kmh in_geofence : ℚ) (lat? lon? : Option ℚ) :
    Except String PredictResult :=
  match st.anomaly_model, st.scaler with
  | some model, some sc =>
    let n := sc.nFeaturesIn.getD 2
    let raw := rawFeatures env n speed_kmh in_geofence lat? lon?
    let vec := if n = 2 then raw else reconcile n raw
    do
      let scaled ← ops.transform sc [vec]
      let preds ← ops.forestPredict model scaled
      let scores ← ops.decisionFunction model scaled
      match preds.head?, scores.head? with
      | some p, some s => .ok ⟨decide (p = -1), |s|, s⟩
      | _, _ => .error "IndexError"
  | _, _ => .ok neutralResult

/-- Embedding of `predict_anomaly()` (lines 235-306): the whole body is
inside try/except, so every failure of the core yields the neutral
default and nothing ever raises to the caller. -/
def predict_anomaly (ops : SkOps) (env : PredictEnv) (st : MLState)
    (speed_kmh in_geofence : ℚ) (lat? lon? : Option ℚ) : PredictResult :=
  match predictCore ops env st speed_kmh in_geofence lat? lon? with
  | .ok r => r
  | .error _ => neutralResult

end ML

/-! ## Retrain serialization (src/ml_engine.py lines 163-233)

The two writers of the model state are the automatic monitor loop
(`auto_retrain_monitor`, lines 169-176: train inside `with retrain_lock`)
and `force_retrain` (lines 221-233: inside `with retrain_lock`, reset
`last_data_hash` to the unknown value, then train).  The interleaving of
any number of such callers is modelled as a step relation over the lock,
the fingerprint, and each caller's program position. -/

namespace Lock

/-- Which code path a caller executes: `forced` is `force_retrain`,
`monitor` is one firing iteration of `auto_retrain_monitor`. -/
inductive Caller where
  | forced
  | monitor
deriving DecidableEq

/-- Program position of one caller.  `entered` is just after acquiring
`retrain_lock`; `hashCleared` is after the forced caller's
`last_data_hash = None`; `training` is inside `train_anomaly_model`;
`trained` is after it returns, still holding the lock; `exited` is after
the `with` block released the lock. -/
inductive Phase where
  | start
  | entered
  | hashCleared
  | training
  | trained
  | exited
deriving DecidableEq

/-- State of the whole system: the static kind of each caller, each
caller's program position, the owner of `retrain_lock` (none = free),
and the shared `last_data_hash`. -/
structure Sys (n : ℕ) where
  kind : Fin n → Caller
  phase : Fin n → Phase
  lockOwner : Option (Fin n)
  lastDataHash : Option ℤ

/-- Initial state: every caller before its lock acquisition, lock free. -/
def initSys (n : ℕ) (kind : Fin n → Caller) (h0 : Option ℤ) : Sys n :=
  ⟨kind, fun _ => .start, none, h0⟩

/-- One interleaving step.  The lock can only be acquired when free;
resetting the fingerprint, training, and releasing follow each caller's
program order. -/
inductive Step (n : ℕ) : Sys n → Sys n → Prop where
  | acquire (s : Sys n) (i : Fin n) :
      s.phase i = .start → s.lockOwner = none →
      Step n s { s with phase := Function.update s.phase i .entered,
                        lockOwner := some i }
  | clearHash (s : Sys n) (i : Fin n) :
      s.phase i = .entered → s.kind i = .forced →
      Step n s { s with phase := Function.update s.phase i .hashCleared,
                        lastDataHash := none }
  | beginTrainForced (s : Sys n) (i : Fin n) :
      s.phase i = .hashCleared → s.kind i = .forced →
      Step n s { s with phase := Function.update s.phase i .training }
  | beginTrainMonitor (s : Sys n) (i : Fin n) :
      s.phase i = .entered → s.kind i = .monitor →
      Step n s { s with phase := Function.update s.phase i .training }
  | endTrain (s : Sys n) (i : Fin n) :
      s.phase i = .training →
      Step n s { s with phase := Function.update s.phase i .trained }
  | release (s : Sys n) (i : Fin n) :
      s.phase i = .trained →
      Step n s { s with phase := Function.update s.phase i .exited,
                        lockOwner := none }

/-- Reachability from a state through interleaving steps. -/
def Reachable (n : ℕ) (s0 s : Sys n) : Prop :=
  Relation.ReflTransGen (Step n) s0 s

/-- Positions at which a caller is inside the `with retrain_lock` block. -/
def inCrit (p : Phase) : Prop :=
  p = .entered ∨ p = .hashCleared ∨ p = .training ∨ p = .trained

/-- Lock-ownership invariant: any caller inside the critical section is
the lock's owner. -/
def Inv {n : ℕ} (s : Sys n) : Prop :=
  ∀ i, inCrit (s.phase i) → s.lockOwner = some i

/-- Two forced callers, used for concrete evaluations of the model. -/
def twoForced : Fin 2 → Caller := fun _ => .forced

/-- Concrete demo: initial state with two forced callers. -/
def demo0 : Sys 2 := initSys 2 twoForced (some 7)

/-- Concrete demo: caller 0 acquired the lock. -/
def demo1 : Sys 2 :=
  { demo0 with phase := Function.update demo0.phase 0 .entered, lockOwner := some 0 }

/-- Concrete demo: caller 0 reset the fingerprint. -/
def demo2 : Sys 2 :=
  { demo1 with phase := Function.update demo1.phase 0 .hashCleared, lastDataHash := none }

/-- Concrete demo: caller 0 is training. -/
def demo3 : Sys 2 :=
  { demo2 with phase := Function.update demo2.phase 0 .training }

end Lock

/-! ## Concrete sample data used by witness evaluations -/

namespace Samples

/-- Well-behaved sklearn operations: the scaler passes rows through, the
forest scores every row as the inlier 1 with decision score 0. -/
def sampleOps : ML.SkOps where
  transform := fun _ rows => .ok rows
  forestPredict := fun _ rows => .ok (rows.map (fun _ => 1))
  decisionFunction := fun _ rows => .ok (rows.map (fun _ => 0))

/-- An empty prediction environment at hour 12. -/
def sampleEnv : ML.PredictEnv :=
  { sqrtQ := fun q => q, alerts := [], locations := [], currentHour := 12 }

/-- The module state before any model is loaded or trained. -/
def emptyState : ML.MLState :=
  { anomaly_model := none, scaler := none,
    last_training_time := none, last_data_hash := none }

/-- A scaler fitted with 4 features, to exercise truncation of the
5-wide enhanced request vector. -/
def scaler4 : ML.StandardScaler := { nFeaturesIn := some 4, trainData := [] }

/-- A forest paired with `scaler4`. -/
def forest4 : ML.IsolationForest := ML.IsolationForest.fit (1/10) 42 []

/-- A loaded module state whose snapshot expects 4 features. -/
def state4 : ML.MLState :=
  { anomaly_model := some forest4, scaler := some scaler4,
    last_training_time := none, last_data_hash := none }

/-- Six identical location events with missing speed and geofence flag 1. -/
def locs6 : List ML.LocationRow :=
  List.replicate 6 { lat := 0, lon := 0, speed_kmh := none,
                     in_geofence := some 1, hour := none }

/-- A training context with no data whose persist step fails: the
pickle dump inside `train_anomaly_model` raises, the except of line 137
catches it. -/
def badCtx : ML.TrainCtx :=
  { sqrtQ := fun q => q, locations := [], alerts := [],
    fitTransform := fun _ => .error "numeric failure",
    persistOutcome := .error "disk full",
    now := 1000, contaminationCfg := 1/10, randomState := 42 }

/-- A training context with no data whose persist step succeeds. -/
def okCtx : ML.TrainCtx :=
  { sqrtQ := fun q => q, locations := [], alerts := [],
    fitTransform := fun rows => .ok rows,
    persistOutcome := .ok (),
    now := 1000, contaminationCfg := 1/10, randomState := 42 }

/-- A module state trained at time 0 with a recorded fingerprint. -/
def trainedState : ML.MLState :=
  { anomaly_model := none, scaler := none,
    last_training_time := some 0, last_data_hash := some 5 }

end Samples

end SafeHorizon

/-! ## Theorems: geofencing claims -/

namespace SafeHorizon

/-- C8: for every point and every polygon with fewer than 3 vertices,
`point_in_polygon` returns `false` (the guard at lines 14-16 fires before
any geometry is built, for every geometry backend), and — being a total
function — it never raises. -/
theorem point_in_polygon_degenerate_false (B : Geo.GeometryBackend)
    (lat lon : ℚ) (coords : List (List ℚ)) (h : coords.length < 3) :
    Geo.point_in_polygon B lat lon coords = false := by
  unfold Geo.point_in_polygon
  simp [h]

/-- Witness for C8: a 2-vertex polygon is reported as not containing the
point (1, 1). -/
theorem point_in_polygon_degenerate_false_witness :
    Geo.point_in_polygon Geo.squareBackend 1 1 [[0, 0], [2, 2]] = false :=
  point_in_polygon_degenerate_false Geo.squareBackend 1 1 [[0, 0], [2, 2]]
    (by decide)

/-- C10: a point lying exactly on the polygon boundary is reported as not
contained (line 28 uses shapely `contains`, whose semantics is
strict-interior containment), and a polygon whose ring is invalid (e.g.
self-intersecting) is reported as not containing any point, because the
result is `is_valid and contains`. -/
theorem point_in_polygon_strict_and_valid (B : Geo.GeometryBackend)
    (lat lon : ℚ) (coords : List (List ℚ)) (ring : List (ℚ × ℚ))
    (hconv : Geo.convertRing coords = some ring)
    (h : B.boundary ring (lon, lat) ∨ B.isValid ring = false) :
    Geo.point_in_polygon B lat lon coords = false := by
  unfold Geo.point_in_polygon
  by_cases hlen : coords.length < 3
  · simp [hlen]
  · simp only [hlen, if_false, hconv]
    rcases h with hb | hv
    · rw [B.containsPoint_strict ring (lon, lat) hb, Bool.and_false]
    · rw [hv, Bool.false_and]

/-- Witness for C10: the point with latitude 0, longitude 1/2 lies on the
bottom edge of the unit square and is reported as not contained. -/
theorem point_in_polygon_strict_and_valid_witness :
    Geo.point_in_polygon Geo.squareBackend 0 (1/2)
      [[0, 0], [0, 1], [1, 1], [1, 0]] = false := by
  apply point_in_polygon_strict_and_valid Geo.squareBackend 0 (1/2)
    [[0, 0], [0, 1], [1, 1], [1, 0]] Geo.squareRing
  · decide
  · exact Or.inl ⟨rfl, by norm_num, by norm_num, by norm_num, by norm_num,
      Or.inr (Or.inr (Or.inl rfl))⟩

/-- C9: `check_geofences` returns exactly the first row, in the stored
list's order, that parses and whose polygon contains the point, projected
to its {id, name, severity} record; rows that fail to parse are skipped;
if no row matches, it returns `none`.  This is the first-match/`find?`
characterisation: when several zones overlap a point, the earliest one in
iteration order is reported. -/
theorem check_geofences_first_match (B : Geo.GeometryBackend)
    (lat lon : ℚ) (rows : List Geo.GeofenceRow) :
    Geo.check_geofences B lat lon rows =
      (rows.find? (Geo.rowMatches B lat lon)).map
        (fun r => ⟨r.id, r.name, r.severity⟩) := by
  induction rows with
  | nil => rfl
  | cons row rest ih =>
    unfold Geo.check_geofences
    rcases hp : row.polygon with _ | coords
    · have hm : Geo.rowMatches B lat lon row = false := by
        unfold Geo.rowMatches
        rw [hp]
      rw [List.find?_cons_of_neg _ (by simp [hm]), ih]
    · by_cases hc : Geo.point_in_polygon B lat lon coords
      · have hm : Geo.rowMatches B lat lon row = true := by
          unfold Geo.rowMatches
          rw [hp]
          exact hc
        rw [List.find?_cons_of_pos _ hm]
        simp [hc]
      · have hm : Geo.rowMatches B lat lon row = false := by
          unfold Geo.rowMatches
          rw [hp]
          simpa using hc
        rw [List.find?_cons_of_neg _ (by simp [hm]), ← ih]
        simp [hc]

end SafeHorizon

/-! ## Theorems: ML engine claims -/

namespace SafeHorizon

/-- Helper: binding a successful `Except` value just applies the
continuation. -/
theorem except_bind_ok {ε α β : Type} (a : α) (f : α → Except ε β) :
    (Except.ok a : Except ε α) >>= f = f a := rfl

/-- Helper: the reconciled vector always has exactly the expected
width. -/
theorem reconcile_length (n : ℕ) (v : List ℚ) :
    (ML.reconcile n v).length = n := by
  unfold ML.reconcile
  by_cases h1 : v.length < n
  · simp only [h1, if_true, List.length_append, List.length_replicate]
    omega
  · by_cases h2 : n < v.length
    · simp only [h1, if_false, h2, if_true, List.length_take]
      omega
    · simp only [h1, if_false, h2]
      omega

/-- C1: `predict_anomaly` is a total function (it returns a plain
`PredictResult`, never raising), and it returns exactly the neutral
default {is_anomaly: false, confidence: 0, score: 0} whenever no model
or no scaler is loaded, and whenever any internal step of feature
building, scaling or scoring fails. -/
theorem predict_neutral_on_failure (ops : ML.SkOps) (env : ML.PredictEnv)
    (st : ML.MLState) (speed geo : ℚ) (lat? lon? : Option ℚ) :
    (st.anomaly_model = none ∨ st.scaler = none →
      ML.predict_anomaly ops env st speed geo lat? lon? = ML.neutralResult)
    ∧ (∀ e, ML.predictCore ops env st speed geo lat? lon? = .error e →
      ML.predict_anomaly ops env st speed geo lat? lon? = ML.neutralResult) := by
  obtain ⟨am, sc, tt, hsh⟩ := st
  constructor
  · intro h
    rcases h with h | h
    · simp only at h
      subst h
      cases sc <;> rfl
    · simp only at h
      subst h
      cases am <;> rfl
  · intro e he
    unfold ML.predict_anomaly
    rw [he]

/-- Witness for C1: prediction on the empty module state (no model, no
scaler loaded) returns the neutral default. -/
theorem predict_neutral_on_failure_witness :
    ML.predict_anomaly Samples.sampleOps Samples.sampleEnv Samples.emptyState
      10 0 none none = ML.neutralResult :=
  (predict_neutral_on_failure Samples.sampleOps Samples.sampleEnv
    Samples.emptyState 10 0 none none).1 (Or.inl rfl)

/-- C2: when the active scaler expects `n` fields and the request-time
vector has a different width, the reconciliation of lines 283-288
applies: a narrower vector is extended with zero-valued synthetic fields
appended at the end up to width `n`; a wider one is truncated from the
right to its first `n` fields; the reconciled vector has width exactly
`n`, and — for library operations that accept a width-`n` vector —
prediction still produces a score without failure. -/
theorem predict_reconciliation (ops : ML.SkOps) (env : ML.PredictEnv)
    (st : ML.MLState) (speed geo : ℚ) (lat? lon? : Option ℚ)
    (sc : ML.StandardScaler) (model : ML.IsolationForest) (n : ℕ)
    (hm : st.anomaly_model = some model) (hs : st.scaler = some sc)
    (hn : sc.nFeaturesIn = some n)
    (hdiff : (ML.rawFeatures env n speed geo lat? lon?).length ≠ n)
    (htr : ∀ v : List ℚ, v.length = n → ∃ w, ops.transform sc [v] = .ok [w])
    (hpred : ∀ w : List ℚ, ∃ p, ops.forestPredict model [w] = .ok [p])
    (hdec : ∀ w : List ℚ, ∃ q, ops.decisionFunction model [w] = .ok [q]) :
    ((ML.rawFeatures env n speed geo lat? lon?).length < n →
      ML.reconcile n (ML.rawFeatures env n speed geo lat? lon?) =
        ML.rawFeatures env n speed geo lat? lon? ++
          List.replicate (n - (ML.rawFeatures env n speed geo lat? lon?).length) 0)
    ∧ (n < (ML.rawFeatures env n speed geo lat? lon?).length →
      ML.reconcile n (ML.rawFeatures env n speed geo lat? lon?) =
        (ML.rawFeatures env n speed geo lat? lon?).take n)
    ∧ (ML.reconcile n (ML.rawFeatures env n speed geo lat? lon?)).length = n
    ∧ ∃ r, ML.predictCore ops env st speed geo lat? lon? = .ok r := by
  have hne2 : n ≠ 2 := by
    intro h2
    subst h2
    simp [ML.rawFeatures] at hdiff
  refine ⟨?_, ?_, reconcile_length n _, ?_⟩
  · intro hlt
    unfold ML.reconcile
    rw [if_pos hlt]
  · intro hgt
    unfold ML.reconcile
    rw [if_neg (by omega), if_pos hgt]
  · obtain ⟨w, hw⟩ := htr (ML.reconcile n (ML.rawFeatures env n speed geo lat? lon?))
      (reconcile_length n _)
    obtain ⟨p, hp⟩ := hpred w
    obtain ⟨q, hq⟩ := hdec w
    refine ⟨⟨decide (p = -1), |q|, q⟩, ?_⟩
    unfold ML.predictCore
    rw [hm, hs]
    simp only [hn, Option.getD_some, if_neg hne2, hw, except_bind_ok, hp, hq]
    rfl

/-- Witness for C2: with a snapshot expecting 4 fields, the 5-wide
enhanced request vector is truncated and prediction succeeds. -/
theorem predict_reconciliation_witness :
    ∃ r, ML.predictCore Samples.sampleOps Samples.sampleEnv Samples.state4
      10 0 none none = .ok r :=
  (predict_reconciliation Samples.sampleOps Samples.sampleEnv Samples.state4
    10 0 none none Samples.scaler4 Samples.forest4 4 rfl rfl rfl (by decide)
    (fun v _ => ⟨v, rfl⟩) (fun _ => ⟨1, rfl⟩) (fun _ => ⟨0, rfl⟩)).2.2.2

/-- C3: whenever a last training time is recorded and less than 30
seconds have elapsed since it, `should_retrain` returns false and leaves
the stored fingerprint untouched, regardless of the current data
fingerprint — so the automatic monitor cannot trigger a second training
within the cooldown window even if the fingerprint differs on every
poll. -/
theorem should_retrain_cooldown (now : ℚ) (currentHash : ℤ)
    (st : ML.MLState) (t : ℚ) (ht : st.last_training_time = some t)
    (hlt : now - t < 30) :
    ML.should_retrain now currentHash st = (false, st) := by
  unfold ML.should_retrain
  rw [ht]
  simp [hlt]

/-- Witness for C3: 10 seconds after a training at time 0, a fresh
fingerprint 999 (different from the stored 5) does not trigger a
retrain. -/
theorem should_retrain_cooldown_witness :
    ML.should_retrain 10 999 Samples.trainedState = (false, Samples.trainedState) :=
  should_retrain_cooldown 10 999 Samples.trainedState 0 rfl (by norm_num)

/-- Counterexample to C5: a concrete training run whose persist step
raises (the except of line 137 catches it inside `train_anomaly_model`,
as witnessed by `last_training_time` staying unset), yet `force_retrain`
returns `true`, not `false`. -/
theorem force_retrain_true_despite_failure :
    Samples.badCtx.persistOutcome = Except.error "disk full"
    ∧ (ML.force_retrain Samples.badCtx Samples.emptyState).1 = true
    ∧ (ML.force_retrain Samples.badCtx Samples.emptyState).2.last_training_time = none :=
  ⟨rfl, rfl, rfl⟩

/-- C5 (amended): `force_retrain` never propagates an exception; an
exception during the training run is caught inside `train_anomaly_model`
itself, so `force_retrain` still returns `true` — its own except branch
(which would return `false`) is unreachable for training failures. -/
theorem force_retrain_always_true (ctx : ML.TrainCtx) (st : ML.MLState) :
    (ML.force_retrain ctx st).1 = true
    ∧ (ML.force_retrain ctx st).2 =
        ML.train_anomaly_model ctx { st with last_data_hash := none } :=
  ⟨rfl, rfl⟩

/-- C6: feature extraction follows the data-volume policy: fewer than 5
events fail with the insufficient-data signal `none`; 5 to 10 events
produce the basic 2-field schema {speed_kmh, in_geofence}; more than 10
events produce the enhanced 5-field schema {speed_kmh, in_geofence,
location_risk, speed_anomaly, hour}; every missing/NaN speed or
in-geofence cell is replaced with 0 (unparsable timestamps are first
defaulted to hour 12 by the parse step), so the result contains no
missing value. -/
theorem extract_features_policy (sqrtQ : ℚ → ℚ) (locs : List ML.LocationRow)
    (alerts : List ML.AlertRow) :
    (locs.length < 5 → ML.extract_enhanced_features sqrtQ locs alerts = none)
    ∧ (5 ≤ locs.length → locs.length ≤ 10 →
      ML.extract_enhanced_features sqrtQ locs alerts =
        some ⟨["speed_kmh", "in_geofence"],
          locs.map (fun r => [r.speed_kmh.getD 0, r.in_geofence.getD 0])⟩)
    ∧ (10 < locs.length →
      ML.extract_enhanced_features sqrtQ locs alerts =
        some ⟨["speed_kmh", "in_geofence", "location_risk", "speed_anomaly", "hour"],
          locs.map (fun r => [r.speed_kmh.getD 0, r.in_geofence.getD 0,
            ML.location_risk alerts r, ML.speed_anomaly_train sqrtQ locs r,
            r.hour.getD 12])⟩) := by
  refine ⟨?_, ?_, ?_⟩
  · intro h
    unfold ML.extract_enhanced_features
    rw [if_pos h]
  · intro h5 h10
    unfold ML.extract_enhanced_features
    rw [if_neg (by omega), if_neg (by omega)]
    unfold ML.fillFrame
    rw [List.map_map]
    rfl
  · intro h
    unfold ML.extract_enhanced_features
    rw [if_neg (by omega), if_pos h]
    unfold ML.fillFrame
    rw [List.map_map]
    rfl

/-- Witness for C6: six events with missing speeds yield the basic
2-field frame with the missing speeds filled with 0. -/
theorem extract_features_policy_witness :
    ML.extract_enhanced_features (fun q => q) Samples.locs6 [] =
      some ⟨["speed_kmh", "in_geofence"],
        Samples.locs6.map (fun r => [r.speed_kmh.getD 0, r.in_geofence.getD 0])⟩ :=
  (extract_features_policy (fun q => q) Samples.locs6 []).2.1
    (by decide) (by decide)

/-- C7: when fewer than 5 feature vectors are available at training time
(no feature frame, or one with fewer than 5 rows), `train_anomaly_model`
fits the normalizer and the scoring model on the fixed built-in seed
dataset of exactly 3 rows with the basic 2-field schema, so after the
run the module state has a model and a scaler, never none; the function
returns a plain state — insufficient data is not surfaced as an error to
any caller. -/
theorem train_seed_model_on_insufficient_data (ctx : ML.TrainCtx)
    (st : ML.MLState)
    (h : ML.extract_enhanced_features ctx.sqrtQ ctx.locations ctx.alerts = none ∨
      ∃ fr, ML.extract_enhanced_features ctx.sqrtQ ctx.locations ctx.alerts = some fr ∧
        fr.rows.length < 5) :
    (ML.train_anomaly_model ctx st).scaler = some (ML.StandardScaler.fit ML.dummy_data)
    ∧ (ML.train_anomaly_model ctx st).anomaly_model =
        some (ML.IsolationForest.fit ctx.contaminationCfg ctx.randomState ML.dummy_data)
    ∧ ML.dummy_data.length = 3
    ∧ (∀ row ∈ ML.dummy_data, row.length = 2)
    ∧ (ML.StandardScaler.fit ML.dummy_data).nFeaturesIn = some 2 := by
  have key : ML.train_anomaly_model ctx st =
      ML.finishTraining ctx (ML.StandardScaler.fit ML.dummy_data)
        (ML.IsolationForest.fit ctx.contaminationCfg ctx.randomState ML.dummy_data) st := by
    unfold ML.train_anomaly_model
    rcases h with h | ⟨fr, hfr, hlt⟩
    · rw [h]
    · rw [hfr]
      simp [hlt]
  have hfin :
      (ML.finishTraining ctx (ML.StandardScaler.fit ML.dummy_data)
        (ML.IsolationForest.fit ctx.contaminationCfg ctx.randomState ML.dummy_data) st).scaler
          = some (ML.StandardScaler.fit ML.dummy_data)
      ∧ (ML.finishTraining ctx (ML.StandardScaler.fit ML.dummy_data)
        (ML.IsolationForest.fit ctx.contaminationCfg ctx.randomState ML.dummy_data) st).anomaly_model
          = some (ML.IsolationForest.fit ctx.contaminationCfg ctx.randomState ML.dummy_data) := by
    unfold ML.finishTraining
    rcases ctx.persistOutcome with e | u <;> exact ⟨rfl, rfl⟩
  rw [key]
  exact ⟨hfin.1, hfin.2, by decide, by decide, by decide⟩

/-- Witness for C7: training on an empty history installs the model
fitted on the 3-row seed dataset. -/
theorem train_seed_model_witness :
    (ML.train_anomaly_model Samples.okCtx Samples.emptyState).anomaly_model =
      some (ML.IsolationForest.fit (1/10) 42 ML.dummy_data) :=
  (train_seed_model_on_insufficient_data Samples.okCtx Samples.emptyState
    (Or.inl rfl)).2.1

/-- Helper: the lock-ownership invariant holds initially. -/
theorem inv_init (n : ℕ) (kind : Fin n → Lock.Caller) (h0 : Option ℤ) :
    Lock.Inv (Lock.initSys n kind h0) := by
  intro i hi
  rcases hi with h | h | h | h <;> simp [Lock.initSys] at h

/-- Helper: the lock-ownership invariant is preserved by every
interleaving step. -/
theorem inv_step {n : ℕ} {s s2 : Lock.Sys n} (hinv : Lock.Inv s)
    (hstep : Lock.Step n s s2) : Lock.Inv s2 := by
  cases hstep with
  | acquire i hp ho =>
    intro j hj
    dsimp only at hj ⊢
    by_cases hij : j = i
    · subst hij
      rfl
    · exfalso
      rw [Function.update_noteq hij] at hj
      have hjo := hinv j hj
      rw [ho] at hjo
      exact Option.noConfusion hjo
  | clearHash i hp hk =>
    intro j hj
    dsimp only at hj ⊢
    by_cases hij : j = i
    · subst hij
      exact hinv j (Or.inl hp)
    · rw [Function.update_noteq hij] at hj
      exact hinv j hj
  | beginTrainForced i hp hk =>
    intro j hj
    dsimp only at hj ⊢
    by_cases hij : j = i
    · subst hij
      exact hinv j (Or.inr (Or.inl hp))
    · rw [Function.update_noteq hij] at hj
      exact hinv j hj
  | beginTrainMonitor i hp hk =>
    intro j hj
    dsimp only at hj ⊢
    by_cases hij : j = i
    · subst hij
      exact hinv j (Or.inl hp)
    · rw [Function.update_noteq hij] at hj
      exact hinv j hj
  | endTrain i hp =>
    intro j hj
    dsimp only at hj ⊢
    by_cases hij : j = i
    · subst hij
      exact hinv j (Or.inr (Or.inr (Or.inl hp)))
    · rw [Function.update_noteq hij] at hj
      exact hinv j hj
  | release i hp =>
    intro j hj
    dsimp only at hj ⊢
    exfalso
    by_cases hij : j = i
    · subst hij
      rw [Function.update_same] at hj
      simp [Lock.inCrit] at hj
    · rw [Function.update_noteq hij] at hj
      have h1 := hinv j hj
      have h2 := hinv i (Or.inr (Or.inr (Or.inr hp)))
      rw [h2] at h1
      exact hij (Option.some.inj h1).symm

/-- Helper: the lock-ownership invariant holds in every reachable
state. -/
theorem inv_reachable {n : ℕ} {s0 s : Lock.Sys n}
    (hr : Lock.Reachable n s0 s) (h0 : Lock.Inv s0) : Lock.Inv s := by
  induction hr with
  | refl => exact h0
  | tail _ hbc ih => exact inv_step ih hbc

/-- C4: in every state reachable from the initial one, any caller inside
the `with retrain_lock` block — in particular `force_retrain` while it
resets the stored fingerprint and while it trains, and the automatic
monitor while it trains — owns the retrain mutex, and no two callers
are ever training simultaneously: at most one training run executes at a
time system-wide, whatever mix of forced and automatic callers. -/
theorem retrain_mutex_serializes (n : ℕ) (kind : Fin n → Lock.Caller)
    (h0 : Option ℤ) (s : Lock.Sys n)
    (hr : Lock.Reachable n (Lock.initSys n kind h0) s) :
    (∀ i, Lock.inCrit (s.phase i) → s.lockOwner = some i)
    ∧ (∀ i j, s.phase i = .training → s.phase j = .training → i = j) := by
  have hinv : Lock.Inv s := inv_reachable hr (inv_init n kind h0)
  refine ⟨hinv, ?_⟩
  intro i j hi hj
  have h1 := hinv i (Or.inr (Or.inr (Or.inl hi)))
  have h2 := hinv j (Or.inr (Or.inr (Or.inl hj)))
  rw [h1] at h2
  exact Option.some.inj h2

/-- Witness for C4: after caller 0 of two concurrent forced callers
acquires the lock, resets the fingerprint and starts training, it owns
the lock. -/
theorem retrain_mutex_serializes_witness :
    Lock.demo3.lockOwner = some (0 : Fin 2) := by
  have hstep1 : Lock.Step 2 Lock.demo0 Lock.demo1 :=
    Lock.Step.acquire Lock.demo0 0 rfl rfl
  have hstep2 : Lock.Step 2 Lock.demo1 Lock.demo2 :=
    Lock.Step.clearHash Lock.demo1 0 (by decide) rfl
  have hstep3 : Lock.Step 2 Lock.demo2 Lock.demo3 :=
    Lock.Step.beginTrainForced Lock.demo2 0 (by decide) rfl
  have hreach : Lock.Reachable 2 (Lock.initSys 2 Lock.twoForced (some 7)) Lock.demo3 :=
    Relation.ReflTransGen.tail
      (Relation.ReflTransGen.tail
        (Relation.ReflTransGen.tail Relation.ReflTransGen.refl hstep1) hstep2) hstep3
  exact (retrain_mutex_serializes 2 Lock.twoForced (some 7) Lock.demo3 hreach).1
    0 (Or.inr (Or.inr (Or.inl (by decide))))

end SafeHorizon
